import Mathlib

/-!
Shallow embedding of `losspager/io/pagerdata.py` (class `PagerData`).

Python attributes that may be unset are modelled as `Option` fields
(`none` = attribute absent; reading it raises `AttributeError`).
Fallible Python code is modelled with `Except PyError`.  Python `dict`s
keyed by strings are modelled as association lists (insertion ordered,
like Python dicts); literal string-keyed dicts become pattern-matching
functions into `Option`.  External collaborators (shakemap grid, loss
models, time utilities, city/catalog services) are opaque capabilities
bundled in `Ctypes`/`Cops`, exactly the calls the source makes.
-/

namespace Losspager

/-- Runtime errors raised by the Python code, abstracted to the kind of
exception plus its payload string. -/
inductive PyError where
  | nameError (name : String)
  | keyError (key : String)
  | attributeError (name : String)
  | unboundLocal (name : String)
  | indexError (msg : String)
  | valueError (msg : String)
deriving DecidableEq, Repr

instance {ε α : Type} [DecidableEq ε] [DecidableEq α] : DecidableEq (Except ε α) :=
  fun x y =>
    match x, y with
    | Except.ok a, Except.ok b =>
        if h : a = b then isTrue (by rw [h])
        else isFalse (fun hh => h (by injection hh))
    | Except.error a, Except.error b =>
        if h : a = b then isTrue (by rw [h])
        else isFalse (fun hh => h (by injection hh))
    | Except.ok _, Except.error _ => isFalse (fun hh => Except.noConfusion hh)
    | Except.error _, Except.ok _ => isFalse (fun hh => Except.noConfusion hh)

/-- Python `<` on lists of characters: lexicographic by code point, with a
proper prefix comparing as smaller.  (Stated by structural recursion so
that it evaluates by kernel reduction.) -/
def pyCharsLt : List Char → List Char → Bool
  | [], [] => false
  | [], _ :: _ => true
  | _ :: _, [] => false
  | a :: as, b :: bs => if a < b then true else if b < a then false else pyCharsLt as bs

/-- Python `<` on strings, as used by `str.__gt__` with the operands
swapped. -/
def pyStrLt (s1 s2 : String) : Bool := pyCharsLt s1.data s2.data

/-- Helper for `pySplit`: split a character list at every separator; `acc`
holds the current (reversed) chunk. -/
def splitChars (sep : Char) : List Char → List Char → List (List Char)
  | [], acc => [acc.reverse]
  | c :: cs, acc =>
    if c = sep then acc.reverse :: splitChars sep cs []
    else splitChars sep cs (c :: acc)

/-- Python `str.split(sep)` for a one-character separator (stated by
structural recursion so that it evaluates by kernel reduction). -/
def pySplit (s : String) (sep : Char) : List String :=
  (splitChars sep s.data []).map (fun l => String.mk l)

/-- Opaque carrier types for the external collaborators' data: `F` stands
for Python floats, `T` for timestamps, the rest for collaborator objects
(shake grid, map-city argument, gazetteer, intensity layer, PagerCities,
city table, ExpoCat catalog, historical-event list). -/
structure Ctypes where
  F : Type
  T : Type
  Grid : Type
  MapCities : Type
  CitySet : Type
  Layer : Type
  PC : Type
  CityTbl : Type
  Cat : Type
  Hist : Type

/-- Result of `shakegrid.getEventDict()`. -/
structure EventDict (τ : Ctypes) where
  event_id : String
  event_timestamp : τ.T
  lat : τ.F
  lon : τ.F
  depth : τ.F
  magnitude : τ.F
  event_description : String

/-- Result of `shakegrid.getShakeDict()`. -/
structure ShakeDict (τ : Ctypes) where
  shakemap_version : String
  code_version : String
  process_timestamp : τ.T

/-- The operations the source calls on external collaborators
(impactutils, mapio, ExpoCat, PagerCities, datetime). -/
structure Cops (τ : Ctypes) where
  getEventDict : τ.Grid → EventDict τ
  getShakeDict : τ.Grid → ShakeDict τ
  utcnow : τ.T
  strftime : τ.T → String → String
  getElapsedString : τ.T → τ.T → String
  get_local_time : τ.T → τ.F → τ.F → τ.T
  fromDefault : τ.Cat
  selectByRadius : τ.Cat → τ.F → τ.F → Nat → τ.Cat
  getHistoricalEvents : τ.Cat → Nat → Nat → τ.F → τ.F → τ.Hist
  loadFromGeoNames : String → τ.CitySet
  getLayer : τ.Grid → String → τ.Layer
  mkPagerCities : τ.CitySet → τ.Layer → τ.PC
  getCityTable : τ.PC → τ.MapCities → τ.CityTbl

/-- The `LossModel` capability interface (`fatmodel` / `ecomodel`):
alert label, combined g-value, probability-per-range mapping, and
per-intensity loss rates. -/
structure LossModel (τ : Ctypes) where
  getAlertLevel : List (String × τ.F) → String
  getCombinedG : List (String × τ.F) → τ.F
  getProbabilities : List (String × τ.F) → τ.F → List (String × τ.F)
  getLossRates : String → List Nat → List τ.F

/-- A dynamically typed Python value as stored in the probability bins:
either a string or a parsed integer. -/
inductive PyVal where
  | str (s : String)
  | num (n : Nat)
deriving DecidableEq, Repr

/-- One probability bin built by `_setAlerts`. -/
structure Bin (τ : Ctypes) where
  color : String
  min : PyVal
  max : PyVal
  probability : τ.F

/-- One alert group (`fatality` or `economic`) of the `alerts` section. -/
structure AlertGroup (τ : Ctypes) where
  gtype : String
  units : String
  gvalue : τ.F
  summary : Bool
  level : String
  bins : List (Bin τ)

/-- The `alerts` report section. -/
structure Alerts (τ : Ctypes) where
  fatality : AlertGroup τ
  economic : AlertGroup τ

/-- The `event_info` report section (`_setEvent`). -/
structure EventInfo (τ : Ctypes) where
  eventid : String
  time : τ.T
  lat : τ.F
  lon : τ.F
  depth : τ.F
  mag : τ.F
  version : Nat
  location : String

/-- The `pager` report section (`_setPager`). -/
structure PagerSection (τ : Ctypes) where
  software_version : String
  processing_time : String
  version_number : Nat
  versioncode : String
  eventcode : String
  alert_level : String
  maxmmi : Nat
  elapsed_time : String
  local_time_string : String

/-- The `shake_info` report section (`_setShakeInfo`). -/
structure ShakeInfo (τ : Ctypes) where
  shake_version : String
  shake_code_version : String
  shake_time : τ.T

/-- A per-country record of the exposure sections. -/
structure CountryExposure where
  country_code : String
  exposure : List Nat
deriving DecidableEq, Repr

/-- The `population_exposure` / `economic_exposure` report sections. -/
structure ExposureSection where
  mmi : List Nat
  aggregated_exposure : List Nat
  country_exposures : List CountryExposure
deriving DecidableEq, Repr

/-- Per-country empirical fatality record (`_setModelResults`). -/
structure CountryFatality (τ : Ctypes) where
  country_code : String
  rates : List τ.F
  fatalities : τ.F

/-- Empirical fatality block of the `model_results` section. -/
structure EmpiricalFatality (τ : Ctypes) where
  total_fatalities : τ.F
  country_fatalities : List (CountryFatality τ)

/-- Per-country empirical economic record (`_setModelResults`). -/
structure CountryDollars (τ : Ctypes) where
  country_code : String
  rates : List τ.F
  us_dollars : τ.F

/-- Empirical economic block of the `model_results` section. -/
structure EmpiricalEconomic (τ : Ctypes) where
  total_dollars : τ.F
  country_dollars : List (CountryDollars τ)

/-- Semi-empirical block of the `model_results` section. -/
structure SemiEmpirical (τ : Ctypes) where
  fatalities : τ.F
  residental_fatalities : τ.F
  non_residental_fatalities : τ.F

/-- The `model_results` report section. -/
structure ModelResults (τ : Ctypes) where
  empirical_fatality : EmpiricalFatality τ
  empirical_economic : EmpiricalEconomic τ
  semi_empirical_fatalities : SemiEmpirical τ

/-- The `comments` report section (`_getComments`). -/
structure Comments where
  impact1 : String
  impact2 : String
  struct_comment : String
  historical_comment : String
  secondary_comment : String
deriving DecidableEq, Repr

/-- Embeds `self._pagerdict`: the ten top-level report keys, each absent
(`none`) until `validate` assigns it. -/
structure PagerDict (τ : Ctypes) where
  event_info : Option (EventInfo τ)
  pager : Option (PagerSection τ)
  shake_info : Option (ShakeInfo τ)
  alerts : Option (Alerts τ)
  population_exposure : Option ExposureSection
  economic_exposure : Option ExposureSection
  model_results : Option (ModelResults τ)
  city_table : Option τ.CityTbl
  historical_earthquakes : Option τ.Hist
  comments : Option Comments

/-- The `PagerData` instance state: presence flags plus every instance
attribute the methods touch (`none` = attribute never assigned). -/
structure PagerState (τ : Ctypes) where
  input_set : Bool
  exposure_set : Bool
  models_set : Bool
  comments_set : Bool
  event_dict : Option (EventDict τ)
  shake_dict : Option (ShakeDict τ)
  shakegrid : Option τ.Grid
  pagerversion : Option Nat
  eventcode : Option String
  maxmmi_attr : Option Nat
  exposure : Option (List (String × List Nat))
  econ_exposure : Option (List (String × List Nat))
  impact1 : Option String
  impact2 : Option String
  struct_comment : Option String
  hist_comment : Option String
  secondary_comment : Option String
  fatmodel : Option (LossModel τ)
  ecomodel : Option (LossModel τ)
  fatmodel_results : Option (List (String × τ.F))
  ecomodel_results : Option (List (String × τ.F))
  semi_loss : Option τ.F
  res_fat : Option τ.F
  non_res_fat : Option τ.F
  city_file : Option String
  map_cities : Option τ.MapCities
  nmmi : Option Nat
  pagerdict : PagerDict τ

/-- Module constant `MINEXP = 1000`. -/
def MINEXP : Nat := 1000

/-- Module constant `SOFTWARE_VERSION = '2.0b'`. -/
def SOFTWARE_VERSION : String := "2.0b"

/-- Module constant `DATETIMEFMT`. -/
def DATETIMEFMT : String := "%Y-%m-%d %H:%M:%S"

/-- Module constant `EVENT_RADIUS = 400`. -/
def EVENT_RADIUS : Nat := 400

/-- Reading a Python instance attribute: `AttributeError` when absent. -/
def getattr {α : Type} (x : Option α) (name : String) : Except PyError α :=
  match x with
  | some v => Except.ok v
  | none => Except.error (PyError.attributeError name)

/-- Indexing a Python dict: `KeyError` when the key is absent. -/
def keyGet {α : Type} (x : Option α) (key : String) : Except PyError α :=
  match x with
  | some v => Except.ok v
  | none => Except.error (PyError.keyError key)

/-- Extract the error of an `Except`, if any. -/
def errOf {α : Type} : Except PyError α → Option PyError
  | Except.error e => some e
  | Except.ok _ => none

/-- The dict `levels = {'green':0,'yellow':1,'orange':2,'red':3}` local to
`_setPager`. -/
def levels : String → Option Nat
  | "green" => some 0
  | "yellow" => some 1
  | "orange" => some 2
  | "red" => some 3
  | _ => none

/-- The dict `rlevels = {0:'green',1:'yellow',2:'orange',3:'red'}` local to
`_setPager`. -/
def rlevels : Nat → Option String
  | 0 => some "green"
  | 1 => some "yellow"
  | 2 => some "orange"
  | 3 => some "red"
  | _ => none

/-- The dict `leveldict` local to `_setAlerts` (same table as `levels`). -/
def leveldict : String → Option Nat
  | "green" => some 0
  | "yellow" => some 1
  | "orange" => some 2
  | "red" => some 3
  | _ => none

/-- The dict `rleveldict` local to `_setAlerts` (same table as `rlevels`). -/
def rleveldict : Nat → Option String
  | 0 => some "green"
  | 1 => some "yellow"
  | 2 => some "orange"
  | 3 => some "red"
  | _ => none

/-- The dict `colors` local to `_setAlerts`: fixed range-label → color. -/
def colors : String → Option String
  | "0-1" => some "green"
  | "1-10" => some "yellow"
  | "10-100" => some "yellow"
  | "100-1000" => some "orange"
  | "1000-10000" => some "red"
  | "10000-100000" => some "red"
  | "100000-10000000" => some "red"
  | _ => none

/-- The loop of `_get_maxmmi`: `for i in range(9,-1,-1)` reading
`exposure['TotalExposure'][i]`, returning `(i+1, exp)` at the first bucket
with `exp >= MINEXP`.  The fuel argument `n` means the next iteration
checks index `n-1`; fuel `0` is loop exhaustion, where the Python
`return (maxmmi, exp)` raises `UnboundLocalError` because `maxmmi` was
never assigned. -/
def scan_maxmmi (exposure : List (String × List Nat)) : Nat → Except PyError (Nat × Nat)
  | 0 => Except.error (PyError.unboundLocal "maxmmi")
  | (i+1) =>
    match exposure.lookup "TotalExposure" with
    | none => Except.error (PyError.keyError "TotalExposure")
    | some t =>
      match t[i]? with
      | none => Except.error (PyError.indexError "list index out of range")
      | some e => if MINEXP ≤ e then Except.ok (i+1, e) else scan_maxmmi exposure i

/-- Embeds `PagerData._get_maxmmi(exposure)`. -/
def get_maxmmi (exposure : List (String × List Nat)) : Except PyError (Nat × Nat) :=
  scan_maxmmi exposure 10

variable {τ : Ctypes}

/-- Embeds `PagerData.__init__`: empty `_pagerdict`, the four flags `False`, and
no other attribute assigned. -/
def init : PagerState τ :=
  { input_set := false, exposure_set := false, models_set := false, comments_set := false
    event_dict := none, shake_dict := none, shakegrid := none, pagerversion := none
    eventcode := none, maxmmi_attr := none, exposure := none, econ_exposure := none
    impact1 := none, impact2 := none, struct_comment := none, hist_comment := none
    secondary_comment := none, fatmodel := none, ecomodel := none
    fatmodel_results := none, ecomodel_results := none, semi_loss := none
    res_fat := none, non_res_fat := none, city_file := none, map_cities := none
    nmmi := none
    pagerdict := ⟨none, none, none, none, none, none, none, none, none, none⟩ }

/-- Embeds `PagerData.setInputs`. -/
def setInputs (ops : Cops τ) (shakegrid : τ.Grid) (pagerversion : Nat) (eventcode : String)
    (st : PagerState τ) : PagerState τ :=
  { st with event_dict := some (ops.getEventDict shakegrid)
            shake_dict := some (ops.getShakeDict shakegrid)
            shakegrid := some shakegrid
            pagerversion := some pagerversion
            eventcode := some eventcode
            input_set := true }

/-- Embeds `PagerData.setExposure`.  The source unpacks
`nmmi, self._maxmmi = self._get_maxmmi(exposure)`, so the local `nmmi`
receives the intensity index (and is discarded) while the attribute
`_maxmmi` receives the companion count. -/
def setExposure (exposure econ_exposure : List (String × List Nat))
    (st : PagerState τ) : Except PyError (PagerState τ) :=
  match get_maxmmi exposure with
  | Except.error e => Except.error e
  | Except.ok pr =>
      Except.ok { st with maxmmi_attr := some pr.2
                          exposure := some exposure
                          econ_exposure := some econ_exposure
                          exposure_set := true }

/-- Embeds `PagerData.setComments`. -/
def setComments (impact1 impact2 struct_comment hist_comment secondary_comment : String)
    (st : PagerState τ) : PagerState τ :=
  { st with impact1 := some impact1, impact2 := some impact2
            struct_comment := some struct_comment, hist_comment := some hist_comment
            secondary_comment := some secondary_comment, comments_set := true }

/-- Embeds `PagerData.setModelResults`. -/
def setModelResults (fatmodel ecomodel : LossModel τ)
    (fatmodel_results ecomodel_results : List (String × τ.F))
    (semi_loss res_fat non_res_fat : τ.F) (st : PagerState τ) : PagerState τ :=
  { st with fatmodel := some fatmodel, ecomodel := some ecomodel
            fatmodel_results := some fatmodel_results
            ecomodel_results := some ecomodel_results
            semi_loss := some semi_loss, res_fat := some res_fat
            non_res_fat := some non_res_fat, models_set := true }

/-- Embeds `PagerData.setMapInfo`: stores the two attributes and sets no
presence flag. -/
def setMapInfo (cityfile : String) (mapcities : τ.MapCities)
    (st : PagerState τ) : PagerState τ :=
  { st with city_file := some cityfile, map_cities := some mapcities }

/-- Embeds `PagerData._setEvent`. -/
def setEvent (st : PagerState τ) : Except PyError (EventInfo τ) := do
  let ed ← getattr st.event_dict "_event_dict"
  let v ← getattr st.pagerversion "_pagerversion"
  pure { eventid := ed.event_id, time := ed.event_timestamp, lat := ed.lat
         lon := ed.lon, depth := ed.depth, mag := ed.magnitude
         version := v, location := ed.event_description }

/-- Embeds `PagerData._setShakeInfo`. -/
def setShakeInfo (st : PagerState τ) : Except PyError (ShakeInfo τ) := do
  let sd ← getattr st.shake_dict "_shake_dict"
  pure { shake_version := sd.shakemap_version
         shake_code_version := sd.code_version
         shake_time := sd.process_timestamp }

/-- Embeds `PagerData._setPager`.  Returns the `pager` section together with the
count `nmmi` that the source assigns to `self._nmmi`. -/
def setPagerSec (ops : Cops τ) (st : PagerState τ) :
    Except PyError (PagerSection τ × Nat) := do
  let process_time := ops.utcnow
  let v ← getattr st.pagerversion "_pagerversion"
  let ed ← getattr st.event_dict "_event_dict"
  let ec ← getattr st.eventcode "_eventcode"
  let fm ← getattr st.fatmodel "_fatmodel"
  let fr ← getattr st.fatmodel_results "_fatmodel_results"
  let em ← getattr st.ecomodel "_ecomodel"
  let er ← getattr st.ecomodel_results "_ecomodel_results"
  let fatlevel := fm.getAlertLevel fr
  let ecolevel := em.getAlertLevel er
  let a ← keyGet (levels fatlevel) fatlevel
  let b ← keyGet (levels ecolevel) ecolevel
  let alert_level ← keyGet (rlevels (Nat.max a b)) (toString (Nat.max a b))
  let expo ← getattr st.exposure "_exposure"
  let mm ← get_maxmmi expo
  let etimestr := ops.getElapsedString ed.event_timestamp process_time
  let localtime := ops.get_local_time ed.event_timestamp ed.lat ed.lon
  pure ({ software_version := SOFTWARE_VERSION
          processing_time := ops.strftime process_time DATETIMEFMT
          version_number := v
          versioncode := ed.event_id
          eventcode := ec
          alert_level := alert_level
          maxmmi := mm.1
          elapsed_time := etimestr
          local_time_string := ops.strftime localtime DATETIMEFMT }, mm.2)

/-- Line 301 of the source:
`is_fat_summary = rleveldict[leveldict[fatlevel]] > rleveldict[leveldict[ecolevel]]`.
The round trip through `rleveldict` maps each label back to itself, so the
Python `>` compares the two label strings lexicographically. -/
def is_fat_summary (fatlevel ecolevel : String) : Except PyError Bool := do
  let a ← keyGet (leveldict fatlevel) fatlevel
  let fa ← keyGet (rleveldict a) (toString a)
  let b ← keyGet (leveldict ecolevel) ecolevel
  let eb ← keyGet (rleveldict b) (toString b)
  pure (pyStrLt eb fa)

/-- The bin loop of `_setAlerts`: for each `(prange, pvalue)` of the
probability mapping, look up the fixed color and split the range label on
`'-'` (`ValueError` unless exactly two parts, as for Python unpacking). -/
def buildBins (probs : List (String × τ.F)) : Except PyError (List (Bin τ)) :=
  probs.mapM (fun pq => do
    let color ← keyGet (colors pq.1) pq.1
    match pySplit pq.1 '-' with
    | [rmin, rmax] => pure { color := color, min := PyVal.str rmin
                             max := PyVal.str rmax, probability := pq.2 }
    | _ => Except.error (PyError.valueError "unpack"))

/-- Embeds `PagerData._setAlerts`. -/
def setAlertsSec (st : PagerState τ) : Except PyError (Alerts τ) := do
  let fm ← getattr st.fatmodel "_fatmodel"
  let fr ← getattr st.fatmodel_results "_fatmodel_results"
  let em ← getattr st.ecomodel "_ecomodel"
  let er ← getattr st.ecomodel_results "_ecomodel_results"
  let fatlevel := fm.getAlertLevel fr
  let ecolevel := em.getAlertLevel er
  let fs ← is_fat_summary fatlevel ecolevel
  let fat_gvalue := fm.getCombinedG fr
  let fatbins ← buildBins (fm.getProbabilities fr fat_gvalue)
  let eco_gvalue := em.getCombinedG er
  let ecobins ← buildBins (em.getProbabilities er eco_gvalue)
  pure { fatality := { gtype := "fatality", units := "fatalities", gvalue := fat_gvalue
                       summary := fs, level := fatlevel, bins := fatbins }
         economic := { gtype := "economic", units := "USD", gvalue := eco_gvalue
                       summary := !fs, level := ecolevel, bins := ecobins } }

/-- Embeds `PagerData._setPopulationExposure`. -/
def setPopulationExposure (st : PagerState τ) : Except PyError ExposureSection := do
  let expo ← getattr st.exposure "_exposure"
  let agg ← keyGet (expo.lookup "TotalExposure") "TotalExposure"
  pure { mmi := List.range' 1 10
         aggregated_exposure := agg
         country_exposures :=
           (expo.filter (fun p => p.1 != "TotalExposure")).map
             (fun p => { country_code := p.1, exposure := p.2 }) }

/-- Embeds `PagerData._setEconomicExposure`. -/
def setEconomicExposure (st : PagerState τ) : Except PyError ExposureSection := do
  let expo ← getattr st.econ_exposure "_econ_exposure"
  let agg ← keyGet (expo.lookup "TotalEconomicExposure") "TotalEconomicExposure"
  pure { mmi := List.range' 1 10
         aggregated_exposure := agg
         country_exposures :=
           (expo.filter (fun p => p.1 != "TotalEconomicExposure")).map
             (fun p => { country_code := p.1, exposure := p.2 }) }

/-- Embeds `PagerData._setModelResults`. -/
def setModelResultsSec (st : PagerState τ) : Except PyError (ModelResults τ) := do
  let fr ← getattr st.fatmodel_results "_fatmodel_results"
  let total_fat ← keyGet (fr.lookup "TotalFatalities") "TotalFatalities"
  let country_deaths ← (fr.filter (fun p => p.1 != "TotalFatalities")).mapM
    (fun p => do
      let fm ← getattr st.fatmodel "_fatmodel"
      pure { country_code := p.1, rates := fm.getLossRates p.1 (List.range' 1 10)
             fatalities := p.2 : CountryFatality τ })
  let er ← getattr st.ecomodel_results "_ecomodel_results"
  let total_dollars ← keyGet (er.lookup "TotalDollars") "TotalDollars"
  let country_dollars ← (er.filter (fun p => p.1 != "TotalDollars")).mapM
    (fun p => do
      let em ← getattr st.ecomodel "_ecomodel"
      pure { country_code := p.1, rates := em.getLossRates p.1 (List.range' 1 10)
             us_dollars := p.2 : CountryDollars τ })
  let sl ← getattr st.semi_loss "_semi_loss"
  let rf ← getattr st.res_fat "_res_fat"
  let nrf ← getattr st.non_res_fat "_non_res_fat"
  pure { empirical_fatality := { total_fatalities := total_fat
                                 country_fatalities := country_deaths }
         empirical_economic := { total_dollars := total_dollars
                                 country_dollars := country_dollars }
         semi_empirical_fatalities := { fatalities := sl, residental_fatalities := rf
                                        non_residental_fatalities := nrf } }

/-- Embeds `PagerData._getHistoricalEarthquakes`.  `maxmmi` and `nmmi` are the
values the source reads back from `self._pagerdict['pager']['maxmmi']`
and `self._nmmi`, which `validate` assigned just before this call. -/
def getHistoricalEarthquakesSec (ops : Cops τ) (st : PagerState τ)
    (maxmmi nmmi : Nat) : Except PyError τ.Hist := do
  let expocat := ops.fromDefault
  let ed ← getattr st.event_dict "_event_dict"
  let inbounds := ops.selectByRadius expocat ed.lat ed.lon EVENT_RADIUS
  let fr ← getattr st.fatmodel_results "_fatmodel_results"
  let deaths ← keyGet (fr.lookup "TotalFatalities") "TotalFatalities"
  let _ := deaths
  pure (ops.getHistoricalEvents inbounds maxmmi nmmi ed.lat ed.lon)

/-- Embeds `PagerData._getCityTable` (attribute reads in source order:
`_city_file`, `_shakegrid`, `_map_cities`). -/
def getCityTableSec (ops : Cops τ) (st : PagerState τ) : Except PyError τ.CityTbl := do
  let cf ← getattr st.city_file "_city_file"
  let cities := ops.loadFromGeoNames cf
  let grid ← getattr st.shakegrid "_shakegrid"
  let pcities := ops.mkPagerCities cities (ops.getLayer grid "mmi")
  let mc ← getattr st.map_cities "_map_cities"
  pure (ops.getCityTable pcities mc)

/-- Embeds `PagerData._getComments`. -/
def getCommentsSec (st : PagerState τ) : Except PyError Comments := do
  let i1 ← getattr st.impact1 "_impact1"
  let i2 ← getattr st.impact2 "_impact2"
  let sc ← getattr st.struct_comment "_struct_comment"
  let hc ← getattr st.hist_comment "_hist_comment"
  let sec ← getattr st.secondary_comment "_secondary_comment"
  pure { impact1 := i1, impact2 := i2, struct_comment := sc
         historical_comment := hc, secondary_comment := sec }

/-- Embeds `PagerData.validate`: the four mandatory-flag checks in source
order, then the ten report sections computed in source order.  Each
failing check executes `raise PagerException('You must call ... first.')`
in the source, but the module never imports or defines `PagerException`,
so evaluating that name raises `NameError` (the message string is never
attached to any raised exception): every failing check surfaces as the
identical `NameError` on the name `PagerException`. -/
def validate (ops : Cops τ) (st : PagerState τ) : Except PyError (PagerState τ) :=
  if st.input_set = false then
    Except.error (PyError.nameError "PagerException")
  else if st.exposure_set = false then
    Except.error (PyError.nameError "PagerException")
  else if st.models_set = false then
    Except.error (PyError.nameError "PagerException")
  else if st.comments_set = false then
    Except.error (PyError.nameError "PagerException")
  else
    setEvent st >>= fun event_info =>
    setPagerSec ops st >>= fun pn =>
    setShakeInfo st >>= fun shake_info =>
    setAlertsSec st >>= fun alerts =>
    setPopulationExposure st >>= fun pop =>
    setEconomicExposure st >>= fun eco =>
    setModelResultsSec st >>= fun mres =>
    getCityTableSec ops st >>= fun city =>
    getHistoricalEarthquakesSec ops st pn.1.maxmmi pn.2 >>= fun hist =>
    getCommentsSec st >>= fun comments =>
    Except.ok { st with nmmi := some pn.2
                        pagerdict := ⟨some event_info, some pn.1, some shake_info
                                      , some alerts, some pop, some eco, some mres
                                      , some city, some hist, some comments⟩ }

/-- Embeds `PagerData.getEventInfo`. -/
def getEventInfo (st : PagerState τ) : Except PyError (EventInfo τ) :=
  keyGet st.pagerdict.event_info "event_info"

/-- Embeds `PagerData.getImpactComments`. -/
def getImpactComments (st : PagerState τ) : Except PyError (String × String) := do
  let c ← keyGet st.pagerdict.comments "comments"
  pure (c.impact1, c.impact2)

/-- Embeds `PagerData.getSoftwareVersion`. -/
def getSoftwareVersion (st : PagerState τ) : Except PyError String := do
  let p ← keyGet st.pagerdict.pager "pager"
  pure p.software_version

/-- Embeds `PagerData.getElapsed`. -/
def getElapsed (st : PagerState τ) : Except PyError String := do
  let p ← keyGet st.pagerdict.pager "pager"
  pure p.elapsed_time

/-- Embeds `PagerData.getTotalExposure`. -/
def getTotalExposure (st : PagerState τ) : Except PyError (List Nat) := do
  let p ← keyGet st.pagerdict.population_exposure "population_exposure"
  pure p.aggregated_exposure

/-- Embeds `PagerData.getHistoricalTable`. -/
def getHistoricalTable (st : PagerState τ) : Except PyError τ.Hist :=
  keyGet st.pagerdict.historical_earthquakes "historical_earthquakes"

/-- Embeds `PagerData.getStructureComment`. -/
def getStructureComment (st : PagerState τ) : Except PyError String := do
  let c ← keyGet st.pagerdict.comments "comments"
  pure c.struct_comment

/-- Embeds `PagerData.getHistoricalComment`. -/
def getHistoricalComment (st : PagerState τ) : Except PyError String := do
  let c ← keyGet st.pagerdict.comments "comments"
  pure c.historical_comment

/-- Embeds `PagerData.getCityTable`. -/
def getCityTable (st : PagerState τ) : Except PyError τ.CityTbl :=
  keyGet st.pagerdict.city_table "city_table"

/-- Embeds `PagerData.getSummaryAlert`. -/
def getSummaryAlert (st : PagerState τ) : Except PyError String := do
  let p ← keyGet st.pagerdict.pager "pager"
  pure p.alert_level

/-- One call to a `PagerData` setter, for quantifying over arbitrary
pre-finalize call sequences. -/
inductive SetterOp (τ : Ctypes) where
  | inputs (shakegrid : τ.Grid) (pagerversion : Nat) (eventcode : String)
  | exposure (exposure econ_exposure : List (String × List Nat))
  | comments (impact1 impact2 struct_comment hist_comment secondary_comment : String)
  | modelResults (fatmodel ecomodel : LossModel τ)
      (fatmodel_results ecomodel_results : List (String × τ.F))
      (semi_loss res_fat non_res_fat : τ.F)
  | mapInfo (cityfile : String) (mapcities : τ.MapCities)

/-- Apply one setter call to the state. -/
def applySetter (ops : Cops τ) (op : SetterOp τ) (st : PagerState τ) :
    Except PyError (PagerState τ) :=
  match op with
  | SetterOp.inputs g v c => Except.ok (setInputs ops g v c st)
  | SetterOp.exposure e ee => setExposure e ee st
  | SetterOp.comments a b c d e => Except.ok (setComments a b c d e st)
  | SetterOp.modelResults fm em fr er sl rf nrf =>
      Except.ok (setModelResults fm em fr er sl rf nrf st)
  | SetterOp.mapInfo f m => Except.ok (setMapInfo f m st)

/-- Apply a sequence of setter calls to the state. -/
def applyOps (ops : Cops τ) : List (SetterOp τ) → PagerState τ →
    Except PyError (PagerState τ)
  | [], st => Except.ok st
  | op :: rest, st =>
    match applySetter ops op st with
    | Except.error e => Except.error e
    | Except.ok st2 => applyOps ops rest st2

/-! ### Concrete test fixtures -/

/-- A concrete collaborator-type instantiation for witnesses: floats and
timestamps as `Nat`, all opaque collaborator objects as `Unit`. -/
abbrev tau0 : Ctypes :=
  { F := Nat, T := Nat, Grid := Unit, MapCities := Unit, CitySet := Unit
    Layer := Unit, PC := Unit, CityTbl := Unit, Cat := Unit, Hist := Unit }

/-- Trivial collaborator operations over `tau0`. -/
def ops0 : Cops tau0 :=
  { getEventDict := fun _ => { event_id := "us1000", event_timestamp := 0, lat := 1
                               lon := 2, depth := 3, magnitude := 4
                               event_description := "somewhere" }
    getShakeDict := fun _ => { shakemap_version := "1", code_version := "3.5"
                               process_timestamp := 0 }
    utcnow := 7
    strftime := fun t _ => toString t
    getElapsedString := fun _ _ => "1 hour"
    get_local_time := fun t _ _ => t
    fromDefault := ()
    selectByRadius := fun _ _ _ _ => ()
    getHistoricalEvents := fun _ _ _ _ _ => ()
    loadFromGeoNames := fun _ => ()
    getLayer := fun _ _ => ()
    mkPagerCities := fun _ _ => ()
    getCityTable := fun _ _ => () }

/-- The seven fixed probability range labels with sample masses. -/
def probs7 : List (String × Nat) :=
  [("0-1", 1), ("1-10", 2), ("10-100", 3), ("100-1000", 4)
   , ("1000-10000", 5), ("10000-100000", 6), ("100000-10000000", 7)]

/-- A loss model whose alert level is `green`, reporting `probs7`. -/
def fmGreen : LossModel tau0 :=
  { getAlertLevel := fun _ => "green", getCombinedG := fun _ => 0
    getProbabilities := fun _ _ => probs7, getLossRates := fun _ _ => [] }

/-- A loss model whose alert level is `orange`, reporting `probs7`. -/
def emOrange : LossModel tau0 :=
  { getAlertLevel := fun _ => "orange", getCombinedG := fun _ => 0
    getProbabilities := fun _ _ => probs7, getLossRates := fun _ _ => [] }

/-- A loss model whose alert level is `yellow`, reporting no bins. -/
def fmYellow : LossModel tau0 :=
  { getAlertLevel := fun _ => "yellow", getCombinedG := fun _ => 0
    getProbabilities := fun _ _ => [], getLossRates := fun _ _ => [] }

/-- A loss model whose alert level is `red`, reporting no bins. -/
def emRed : LossModel tau0 :=
  { getAlertLevel := fun _ => "red", getCombinedG := fun _ => 0
    getProbabilities := fun _ _ => [], getLossRates := fun _ _ => [] }

/-- The spec's example population-exposure table: buckets 1..10 hold
`[0,0,0,0,0,0,0,0,999,1500]`, plus one country row. -/
def expo0 : List (String × List Nat) :=
  [("TotalExposure", [0, 0, 0, 0, 0, 0, 0, 0, 999, 1500])
   , ("US", [10, 10, 10, 10, 10, 10, 10, 10, 10, 10])]

/-- A concrete economic-exposure table. -/
def econ0 : List (String × List Nat) :=
  [("TotalEconomicExposure", [0, 0, 0, 0, 0, 0, 0, 0, 0, 5])
   , ("US", [1, 1, 1, 1, 1, 1, 1, 1, 1, 1])]

/-- Concrete fatality-model results. -/
def fres0 : List (String × Nat) := [("TotalFatalities", 0), ("US", 12)]

/-- Concrete economic-model results. -/
def eres0 : List (String × Nat) := [("TotalDollars", 0), ("US", 90)]

/-- The state reached from `init` by `setExposure expo0 econ0` alone. -/
def stExp : PagerState tau0 :=
  { (init : PagerState tau0) with maxmmi_attr := some 1500
                                  exposure := some expo0
                                  econ_exposure := some econ0
                                  exposure_set := true }

/-- A fully populated registry (all five groups, map info included):
fatality alert `green`, economic alert `orange`, exposure `expo0`. -/
def stFull : PagerState tau0 :=
  { input_set := true, exposure_set := true, models_set := true, comments_set := true
    event_dict := some (ops0.getEventDict ())
    shake_dict := some (ops0.getShakeDict ())
    shakegrid := some (), pagerversion := some 1, eventcode := some "us1000"
    maxmmi_attr := some 1500, exposure := some expo0, econ_exposure := some econ0
    impact1 := some "i1", impact2 := some "i2", struct_comment := some "sc"
    hist_comment := some "hc", secondary_comment := some "sec"
    fatmodel := some fmGreen, ecomodel := some emOrange
    fatmodel_results := some fres0, ecomodel_results := some eres0
    semi_loss := some 3, res_fat := some 2, non_res_fat := some 1
    city_file := some "cities1000.txt", map_cities := some ()
    nmmi := none
    pagerdict := ⟨none, none, none, none, none, none, none, none, none, none⟩ }

/-- The registry `stFull` with the map-info attributes never set. -/
def stNoMap : PagerState tau0 :=
  { stFull with city_file := none, map_cities := none }

/-- A registry whose fatality model reports `yellow` and economic model
reports `red` (the spec's own summary example). -/
def stYR : PagerState tau0 :=
  { stFull with fatmodel := some fmYellow, ecomodel := some emRed }

/-- A registry with inputs and exposure flagged as set but model results
and comments missing. -/
def stTTFF : PagerState tau0 :=
  { (init : PagerState tau0) with input_set := true, exposure_set := true }

/-- The registry `stFull` with the comments group missing. -/
def stNoComments : PagerState tau0 :=
  { stFull with comments_set := false }

/-- The summary alert read back through `getSummaryAlert` from the state
`validate` produces. -/
def finalSummaryAlert (ops : Cops τ) (st : PagerState τ) : Option String :=
  (validate ops st).toOption.bind fun s2 => (getSummaryAlert s2).toOption

/-- The pair (fatality `summary` flag, economic `summary` flag) of the
alerts section. -/
def alertSummaryFlags (st : PagerState τ) : Option (Bool × Bool) :=
  (setAlertsSec st).toOption.map fun al => (al.fatality.summary, al.economic.summary)

/-- The four alert labels. -/
def labels4 : List String := ["green", "yellow", "orange", "red"]

/-- The label pairs (fatality, economic) for which the source marks the
fatality group as summary: exactly the pairs whose fatality label is
lexicographically greater as a Python string. -/
def fatWins : List (String × String) :=
  [("orange", "green"), ("red", "green"), ("red", "orange")
   , ("yellow", "green"), ("yellow", "orange"), ("yellow", "red")]

/-- Numeric value of a decimal digit character. -/
def digitVal (c : Char) : Option Nat :=
  if ('0' ≤ c ∧ c ≤ '9') then some (c.toNat - '0'.toNat) else none

/-- Accumulate the decimal value of a digit string. -/
def charsToNatAux : List Char → Nat → Option Nat
  | [], acc => some acc
  | c :: cs, acc =>
    match digitVal c with
    | none => none
    | some d => charsToNatAux cs (acc * 10 + d)

/-- Python `int(s)` restricted to non-negative decimal literals. -/
def pyInt (s : String) : Option Nat :=
  match s.data with
  | [] => none
  | l => charsToNatAux l 0

/-- Bins as the spec describes them (second definition, following the
spec's words rather than the source): the fixed color for the range
label, and numeric `min`/`max` parsed from the two halves of the label. -/
def specNumericBins (probs : List (String × τ.F)) : Option (List (Bin τ)) :=
  probs.mapM (fun pq => do
    let color ← colors pq.1
    match pySplit pq.1 '-' with
    | [rmin, rmax] => do
        let m ← pyInt rmin
        let mx ← pyInt rmax
        some { color := color, min := PyVal.num m, max := PyVal.num mx
               probability := pq.2 }
    | _ => none)


/-! ### Helper lemmas -/

theorem exBindOk {ε α β : Type} (a : α) (f : α → Except ε β) :
    (Except.ok a >>= f : Except ε β) = f a := rfl

theorem exBindErr {ε α β : Type} (e : ε) (f : α → Except ε β) :
    (Except.error e >>= f : Except ε β) = Except.error e := rfl

theorem exBind_ok_inv {ε α β : Type} {x : Except ε α} {f : α → Except ε β} {b : β}
    (h : (x >>= f) = Except.ok b) : ∃ a, x = Except.ok a ∧ f a = Except.ok b := by
  cases x with
  | error e => rw [exBindErr] at h; exact Except.noConfusion h
  | ok a => exact ⟨a, rfl, by rwa [exBindOk] at h⟩

theorem getattr_ok_inv {α : Type} {x : Option α} {n : String} {v : α}
    (h : getattr x n = Except.ok v) : x = some v := by
  cases x with
  | none => exact Except.noConfusion h
  | some w =>
      have h2 : (Except.ok w : Except PyError α) = Except.ok v := h
      injection h2 with h3
      rw [h3]

theorem keyGet_ok_inv {α : Type} {x : Option α} {k : String} {v : α}
    (h : keyGet x k = Except.ok v) : x = some v := by
  cases x with
  | none => exact Except.noConfusion h
  | some w =>
      have h2 : (Except.ok w : Except PyError α) = Except.ok v := h
      injection h2 with h3
      rw [h3]

theorem exPure_ok_inv {ε α : Type} {a b : α}
    (h : (pure a : Except ε α) = Except.ok b) : a = b := by
  have : Except.ok (ε := ε) a = Except.ok b := h
  injection this

theorem exOk_inv {ε α : Type} {a b : α}
    (h : (Except.ok a : Except ε α) = Except.ok b) : a = b := by
  injection h

theorem levels_some_le {s : String} {a : Nat} (h : levels s = some a) : a ≤ 3 := by
  unfold levels at h
  split at h <;> first
    | (injection h with h2; omega)
    | exact Option.noConfusion h

theorem rlevels_bind_levels {n : Nat} (h : n ≤ 3) :
    (rlevels n).bind levels = some n := by
  interval_cases n <;> decide

theorem setPagerSec_inv {ops : Cops τ} {st : PagerState τ} {pn : PagerSection τ × Nat}
    (h : setPagerSec ops st = Except.ok pn) :
    ∃ fm fr em er a b expo,
      st.fatmodel = some fm ∧ st.fatmodel_results = some fr ∧
      st.ecomodel = some em ∧ st.ecomodel_results = some er ∧
      levels (fm.getAlertLevel fr) = some a ∧ levels (em.getAlertLevel er) = some b ∧
      rlevels (Nat.max a b) = some pn.1.alert_level ∧
      st.exposure = some expo ∧ get_maxmmi expo = Except.ok (pn.1.maxmmi, pn.2) := by
  unfold setPagerSec at h
  obtain ⟨v, hv, h⟩ := exBind_ok_inv h
  obtain ⟨ed, hed, h⟩ := exBind_ok_inv h
  obtain ⟨ec, hec, h⟩ := exBind_ok_inv h
  obtain ⟨fm, hfm, h⟩ := exBind_ok_inv h
  obtain ⟨fr, hfr, h⟩ := exBind_ok_inv h
  obtain ⟨em, hem, h⟩ := exBind_ok_inv h
  obtain ⟨er, her, h⟩ := exBind_ok_inv h
  obtain ⟨a, ha, h⟩ := exBind_ok_inv h
  obtain ⟨b, hb, h⟩ := exBind_ok_inv h
  obtain ⟨al, hal, h⟩ := exBind_ok_inv h
  obtain ⟨expo, hexpo, h⟩ := exBind_ok_inv h
  obtain ⟨mm, hmm, h⟩ := exBind_ok_inv h
  have hpn := exPure_ok_inv h
  refine ⟨fm, fr, em, er, a, b, expo, getattr_ok_inv hfm, getattr_ok_inv hfr,
          getattr_ok_inv hem, getattr_ok_inv her, keyGet_ok_inv ha, keyGet_ok_inv hb,
          ?_, getattr_ok_inv hexpo, ?_⟩
  · rw [← hpn]
    exact keyGet_ok_inv hal
  · rw [← hpn]
    exact hmm

theorem validate_ok_inv {ops : Cops τ} {st s2 : PagerState τ}
    (h : validate ops st = Except.ok s2) :
    ∃ pn, setPagerSec ops st = Except.ok pn ∧ s2.pagerdict.pager = some pn.1 ∧
      (getCityTableSec ops st).toOption.isSome = true := by
  unfold validate at h
  split at h
  · exact Except.noConfusion h
  split at h
  · exact Except.noConfusion h
  split at h
  · exact Except.noConfusion h
  split at h
  · exact Except.noConfusion h
  obtain ⟨ev, hev, h⟩ := exBind_ok_inv h
  obtain ⟨pn, hpn, h⟩ := exBind_ok_inv h
  obtain ⟨sh, hsh, h⟩ := exBind_ok_inv h
  obtain ⟨al, hal, h⟩ := exBind_ok_inv h
  obtain ⟨pop, hpop, h⟩ := exBind_ok_inv h
  obtain ⟨eco, heco, h⟩ := exBind_ok_inv h
  obtain ⟨mr, hmr, h⟩ := exBind_ok_inv h
  obtain ⟨ct, hct, h⟩ := exBind_ok_inv h
  obtain ⟨hi, hhi, h⟩ := exBind_ok_inv h
  obtain ⟨cm, hcm, h⟩ := exBind_ok_inv h
  have h2 := exOk_inv h
  refine ⟨pn, hpn, ?_, ?_⟩
  · rw [← h2]
  · rw [hct]
    rfl

theorem applySetter_pagerdict {ops : Cops τ} {op : SetterOp τ} {st st2 : PagerState τ}
    (h : applySetter ops op st = Except.ok st2) : st2.pagerdict = st.pagerdict := by
  cases op with
  | inputs g v c =>
      have h3 := exOk_inv (a := setInputs ops g v c st) h
      rw [← h3]
      rfl
  | exposure e ee =>
      have h4 : setExposure e ee st = Except.ok st2 := h
      unfold setExposure at h4
      cases hg : get_maxmmi e with
      | error e2 => rw [hg] at h4; exact Except.noConfusion h4
      | ok pr =>
          rw [hg] at h4
          have h3 := exOk_inv h4
          rw [← h3]
  | comments a b c d e =>
      have h3 := exOk_inv (a := setComments a b c d e st) h
      rw [← h3]
      rfl
  | modelResults fm em fr er sl rf nrf =>
      have h3 := exOk_inv (a := setModelResults fm em fr er sl rf nrf st) h
      rw [← h3]
      rfl
  | mapInfo f m =>
      have h3 := exOk_inv (a := setMapInfo f m st) h
      rw [← h3]
      rfl

theorem applyOps_pagerdict {ops : Cops τ} :
    ∀ {l : List (SetterOp τ)} {st st2 : PagerState τ},
      applyOps ops l st = Except.ok st2 → st2.pagerdict = st.pagerdict := by
  intro l
  induction l with
  | nil =>
      intro st st2 h
      have h2 : Except.ok st = Except.ok st2 := h
      injection h2 with h3
      rw [← h3]
  | cons op rest ih =>
      intro st st2 h
      unfold applyOps at h
      cases ha : applySetter ops op st with
      | error e => rw [ha] at h; exact Except.noConfusion h
      | ok stm =>
          rw [ha] at h
          rw [ih h, applySetter_pagerdict ha]

theorem is_fat_summary_table {f e : String} (hf : f ∈ labels4) (he : e ∈ labels4) :
    is_fat_summary f e = Except.ok (decide ((f, e) ∈ fatWins)) := by
  fin_cases hf <;> fin_cases he <;> decide

theorem scan_maxmmi_found {expo : List (String × List Nat)} {t : List Nat} {j : Nat}
    (hlk : expo.lookup "TotalExposure" = some t) (hlen : t.length = 10)
    (hj : j < 10) (hge : MINEXP ≤ t.getD j 0)
    (hmax : ∀ k, j < k → k < 10 → t.getD k 0 < MINEXP) :
    ∀ n, n ≤ 10 → j < n → scan_maxmmi expo n = Except.ok (j + 1, t.getD j 0) := by
  intro n
  induction n with
  | zero => intro _ h; omega
  | succ m ih =>
    intro hn hjm
    have hm : m < t.length := by omega
    have hgd : t.getD m 0 = t[m] := by
      simp [List.getD_eq_getElem?_getD, List.getElem?_eq_getElem hm]
    simp only [scan_maxmmi, hlk, List.getElem?_eq_getElem hm]
    rcases Nat.lt_succ_iff_lt_or_eq.mp hjm with hlt | heq
    · have hsmall : t[m] < MINEXP := by
        have h2 := hmax m hlt (by omega)
        rwa [hgd] at h2
      rw [if_neg (by omega)]
      exact ih (by omega) hlt
    · subst heq
      rw [if_pos (by rwa [hgd] at hge)]
      rw [hgd]

theorem scan_maxmmi_exhausted {expo : List (String × List Nat)} {t : List Nat}
    (hlk : expo.lookup "TotalExposure" = some t) (hlen : t.length = 10)
    (hall : ∀ k, k < 10 → t.getD k 0 < MINEXP) :
    ∀ n, n ≤ 10 → scan_maxmmi expo n = Except.error (PyError.unboundLocal "maxmmi") := by
  intro n
  induction n with
  | zero => intro _; rfl
  | succ m ih =>
    intro hn
    have hm : m < t.length := by omega
    have hgd : t.getD m 0 = t[m] := by
      simp [List.getD_eq_getElem?_getD, List.getElem?_eq_getElem hm]
    simp only [scan_maxmmi, hlk, List.getElem?_eq_getElem hm]
    have hsmall : t[m] < MINEXP := by
      have h2 := hall m (by omega)
      rwa [hgd] at h2
    rw [if_neg (by omega)]
    exact ih (by omega)

/-! ### Claim C3 -/

/-- C3: for a 10-bucket total population-exposure sequence, if `j` is the
highest 0-based bucket position whose count reaches 1000, then
`_get_maxmmi` returns the 1-based intensity `j + 1` together with that
bucket's count. -/
theorem maxmmi_highest_qualifying_bucket
    (expo : List (String × List Nat)) (t : List Nat) (j : Nat)
    (hlk : expo.lookup "TotalExposure" = some t) (hlen : t.length = 10)
    (hj : j < 10) (hge : 1000 ≤ t.getD j 0)
    (hmax : ∀ k ∈ List.range 10, j < k → t.getD k 0 < 1000) :
    get_maxmmi expo = Except.ok (j + 1, t.getD j 0) :=
  scan_maxmmi_found hlk hlen hj hge
    (fun k hjk hk => hmax k (List.mem_range.mpr hk) hjk) 10 le_rfl hj

/-- Witness for C3 at the spec's example totals
`[0,0,0,0,0,0,0,0,999,1500]`: max intensity 10 with count 1500. -/
theorem maxmmi_highest_qualifying_bucket_witness :
    get_maxmmi expo0 = Except.ok (10, 1500) :=
  maxmmi_highest_qualifying_bucket expo0 [0, 0, 0, 0, 0, 0, 0, 0, 999, 1500] 9
    (by decide) (by decide) (by decide) (by decide) (by decide)

/-! ### Claim C4 -/

/-- C4 counterexample: on a total-exposure sequence with every bucket
below 1000, `_get_maxmmi` does not return `(1, count)`: the Python
`return (maxmmi, exp)` raises `UnboundLocalError` because the loop never
assigned `maxmmi`. -/
theorem maxmmi_no_threshold_cex :
    get_maxmmi [("TotalExposure", [0, 0, 0, 0, 0, 0, 0, 0, 0, 0])]
      = Except.error (PyError.unboundLocal "maxmmi")
    ∧ (Except.error (PyError.unboundLocal "maxmmi") : Except PyError (Nat × Nat))
      ≠ Except.ok (1, 0) := by decide

/-- C4 amended: whenever no bucket of the 10-bucket total sequence
reaches 1000, `_get_maxmmi` fails with `UnboundLocalError` on `maxmmi`
instead of returning the lowest bucket's index and count. -/
theorem maxmmi_no_threshold_errors
    (expo : List (String × List Nat)) (t : List Nat)
    (hlk : expo.lookup "TotalExposure" = some t) (hlen : t.length = 10)
    (hall : ∀ k ∈ List.range 10, t.getD k 0 < 1000) :
    get_maxmmi expo = Except.error (PyError.unboundLocal "maxmmi") :=
  scan_maxmmi_exhausted hlk hlen
    (fun k hk => hall k (List.mem_range.mpr hk)) 10 le_rfl

/-- Witness for the amended C4 on a table whose buckets all hold 999. -/
theorem maxmmi_no_threshold_errors_witness :
    get_maxmmi [("TotalExposure", List.replicate 10 999), ("US", List.replicate 10 1)]
      = Except.error (PyError.unboundLocal "maxmmi") :=
  maxmmi_no_threshold_errors _ (List.replicate 10 999)
    (by decide) (by decide) (by decide)

/-! ### Claim C5 -/

/-- C5: the `(maxmmi, count)` pair `_get_maxmmi` produced when
`setExposure` cached it equals the pair `_setPager` recomputes at
finalize time from the stored (unmodified) exposure table; `setExposure`
also stores the table unchanged and caches the count component in
`self._maxmmi`. -/
theorem maxmmi_cached_equals_recomputed
    (ops : Cops τ) (st st1 st2 : PagerState τ)
    (expo econ : List (String × List Nat))
    (hset : setExposure expo econ st = Except.ok st1)
    (hsame : st2.exposure = st1.exposure)
    (hps : (setPagerSec ops st2).toOption.isSome = true) :
    (setPagerSec ops st2).toOption.map (fun q => (q.1.maxmmi, q.2))
      = (get_maxmmi expo).toOption
    ∧ st1.exposure = some expo
    ∧ st1.maxmmi_attr = (get_maxmmi expo).toOption.map (fun pr => pr.2) := by
  unfold setExposure at hset
  cases hg : get_maxmmi expo with
  | error e2 => rw [hg] at hset; exact Except.noConfusion hset
  | ok pr =>
    rw [hg] at hset
    have h1 := exOk_inv hset
    have hse : st1.exposure = some expo := by rw [← h1]
    have hsm : st1.maxmmi_attr = some pr.2 := by rw [← h1]
    cases hq : setPagerSec ops st2 with
    | error e2 => rw [hq] at hps; simp [Except.toOption] at hps
    | ok pn =>
      obtain ⟨fm, fr, em, er, a, b, expo2, _, _, _, _, _, _, _, hexpo2, hmm⟩ :=
        setPagerSec_inv hq
      have hee : expo2 = expo := by
        have h5 : some expo2 = some expo := by rw [← hexpo2, hsame, hse]
        injection h5
      subst hee
      rw [hg] at hmm
      have h6 := exOk_inv hmm
      refine ⟨?_, hse, ?_⟩
      · show some (pn.1.maxmmi, pn.2) = some pr
        rw [h6]
      · rw [hsm]
        rfl

/-- Witness for C5: `setExposure` on the fresh registry with `expo0`
yields `stExp`, and `_setPager` over `stFull` (same stored table)
recomputes the identical `(10, 1500)` pair. -/
theorem maxmmi_cached_equals_recomputed_witness :
    (setPagerSec ops0 stFull).toOption.map (fun q => (q.1.maxmmi, q.2))
      = (get_maxmmi expo0).toOption
    ∧ stExp.exposure = some expo0
    ∧ stExp.maxmmi_attr = (get_maxmmi expo0).toOption.map (fun pr => pr.2) :=
  maxmmi_cached_equals_recomputed ops0 init stExp stFull expo0 econ0 rfl rfl (by decide)

/-! ### Claim C2 -/

/-- C2: if the fatality and economic alert labels are valid levels with
severities `a` and `b`, and `validate` succeeds, then the summary alert
read back through `getSummaryAlert` from the finalized report's `pager`
section is the label of severity `max a b` (and that label's severity is
exactly `max a b`). -/
theorem combined_alert_is_max_severity
    (ops : Cops τ) (st : PagerState τ) (fm em : LossModel τ)
    (fr er : List (String × τ.F)) (f e : String) (a b : Nat)
    (hfm : st.fatmodel = some fm) (hfr : st.fatmodel_results = some fr)
    (hem : st.ecomodel = some em) (her : st.ecomodel_results = some er)
    (hf : fm.getAlertLevel fr = f) (he : em.getAlertLevel er = e)
    (ha : levels f = some a) (hb : levels e = some b)
    (hok : (validate ops st).toOption.isSome = true) :
    finalSummaryAlert ops st = rlevels (Nat.max a b)
    ∧ (rlevels (Nat.max a b)).bind levels = some (Nat.max a b) := by
  constructor
  · cases hv : validate ops st with
    | error e2 => rw [hv] at hok; simp [Except.toOption] at hok
    | ok s2 =>
      obtain ⟨pn, hps, hpg, _⟩ := validate_ok_inv hv
      obtain ⟨fm2, fr2, em2, er2, a2, b2, expo2, h1, h2, h3, h4, h5, h6, h7, _, _⟩ :=
        setPagerSec_inv hps
      rw [hfm] at h1
      rw [hfr] at h2
      rw [hem] at h3
      rw [her] at h4
      injection h1 with h1e
      injection h2 with h2e
      injection h3 with h3e
      injection h4 with h4e
      subst h1e
      subst h2e
      subst h3e
      subst h4e
      rw [hf, ha] at h5
      rw [he, hb] at h6
      injection h5 with h5e
      injection h6 with h6e
      subst h5e
      subst h6e
      unfold finalSummaryAlert
      rw [hv]
      show (getSummaryAlert s2).toOption = rlevels (Nat.max a b)
      unfold getSummaryAlert
      rw [hpg]
      show some pn.1.alert_level = rlevels (Nat.max a b)
      rw [h7]
  · exact rlevels_bind_levels (Nat.max_le.mpr ⟨levels_some_le ha, levels_some_le hb⟩)

/-- Witness for C2 at `stFull`: fatality `green` (severity 0), economic
`orange` (severity 2); the finalized summary alert is `orange`. -/
theorem combined_alert_is_max_severity_witness :
    finalSummaryAlert ops0 stFull = some "orange"
    ∧ (rlevels (Nat.max 0 2)).bind levels = some 2 :=
  combined_alert_is_max_severity ops0 stFull fmGreen emOrange fres0 eres0
    "green" "orange" 0 2 rfl rfl rfl rfl rfl rfl rfl rfl (by decide)

/-! ### Claim C6 -/

/-- C6 counterexample: a fresh registry (inputs missing), a registry with
only inputs and exposure set (model results the first missing group in
source order), and a registry missing only the comments group all fail
with the *identical* `NameError` on the undefined name `PagerException` —
no raised error is a `MissingInputError` and none names any missing
group, so `validate` cannot be "naming the first missing mandatory
group", and the claimed check order comments-before-model-results is not
what the source does either. -/
theorem validate_check_order_cex :
    errOf (validate ops0 (init : PagerState tau0))
      = some (PyError.nameError "PagerException")
    ∧ errOf (validate ops0 stTTFF) = some (PyError.nameError "PagerException")
    ∧ errOf (validate ops0 stNoComments) = some (PyError.nameError "PagerException")
    ∧ stTTFF.input_set = true ∧ stTTFF.exposure_set = true
    ∧ stTTFF.models_set = false ∧ stTTFF.comments_set = false
    ∧ stNoComments.models_set = true ∧ stNoComments.comments_set = false := by
  decide

/-- C6 amended: the mandatory flags are checked in the fixed source order
inputs, exposure, model results, comments; each failing check executes
`raise PagerException(...)`, but the module never imports or defines
`PagerException`, so every failure — whichever group is missing —
surfaces as the identical `NameError` on the name `PagerException`,
naming no missing group; in particular a registry where everything but
`setComments` was called does fail (via the comments-flag check, the
last one) with that `NameError`. -/
theorem validate_check_order (ops : Cops τ) (st : PagerState τ) :
    (st.input_set = false →
      validate ops st = Except.error (PyError.nameError "PagerException"))
    ∧ (st.input_set = true → st.exposure_set = false →
      validate ops st = Except.error (PyError.nameError "PagerException"))
    ∧ (st.input_set = true → st.exposure_set = true → st.models_set = false →
      validate ops st = Except.error (PyError.nameError "PagerException"))
    ∧ (st.input_set = true → st.exposure_set = true → st.models_set = true →
        st.comments_set = false →
      validate ops st = Except.error (PyError.nameError "PagerException")) := by
  refine ⟨?_, ?_, ?_, ?_⟩ <;> intros <;> simp [validate, *]

/-- Witness for the amended C6: everything but `setComments` was called,
and `validate` fails through the comments-flag check with the `NameError`
on `PagerException`. -/
theorem validate_check_order_witness :
    validate ops0 stNoComments
      = Except.error (PyError.nameError "PagerException") :=
  (validate_check_order ops0 stNoComments).2.2.2 rfl rfl rfl rfl

/-! ### Claim C7 -/

/-- C7: after any sequence of setter calls on a fresh registry and no
`validate`, every report accessor fails (`self._pagerdict` has none of the
ten keys, so each lookup raises `KeyError`). -/
theorem accessors_fail_before_finalize (ops : Cops τ) (l : List (SetterOp τ))
    (st2 : PagerState τ) (h : applyOps ops l (init : PagerState τ) = Except.ok st2) :
    getEventInfo st2 = Except.error (PyError.keyError "event_info")
    ∧ getImpactComments st2 = Except.error (PyError.keyError "comments")
    ∧ getSoftwareVersion st2 = Except.error (PyError.keyError "pager")
    ∧ getElapsed st2 = Except.error (PyError.keyError "pager")
    ∧ getTotalExposure st2 = Except.error (PyError.keyError "population_exposure")
    ∧ getHistoricalTable st2 = Except.error (PyError.keyError "historical_earthquakes")
    ∧ getStructureComment st2 = Except.error (PyError.keyError "comments")
    ∧ getHistoricalComment st2 = Except.error (PyError.keyError "comments")
    ∧ getCityTable st2 = Except.error (PyError.keyError "city_table")
    ∧ getSummaryAlert st2 = Except.error (PyError.keyError "pager") := by
  have hpd : st2.pagerdict = (init : PagerState τ).pagerdict := applyOps_pagerdict h
  refine ⟨?_, ?_, ?_, ?_, ?_, ?_, ?_, ?_, ?_, ?_⟩ <;>
    simp [getEventInfo, getImpactComments, getSoftwareVersion, getElapsed,
          getTotalExposure, getHistoricalTable, getStructureComment,
          getHistoricalComment, getCityTable, getSummaryAlert, keyGet, hpd, init,
          exBindErr]

/-- Witness for C7: after `setInputs` and `setComments` on a fresh
registry (no finalize), all ten accessors raise `KeyError`. -/
theorem accessors_fail_before_finalize_witness :
    getEventInfo (setComments "a" "b" "c" "d" "e" (setInputs ops0 () 1 "us1000" init))
      = Except.error (PyError.keyError "event_info")
    ∧ getImpactComments (setComments "a" "b" "c" "d" "e" (setInputs ops0 () 1 "us1000" init))
      = Except.error (PyError.keyError "comments")
    ∧ getSoftwareVersion (setComments "a" "b" "c" "d" "e" (setInputs ops0 () 1 "us1000" init))
      = Except.error (PyError.keyError "pager")
    ∧ getElapsed (setComments "a" "b" "c" "d" "e" (setInputs ops0 () 1 "us1000" init))
      = Except.error (PyError.keyError "pager")
    ∧ getTotalExposure (setComments "a" "b" "c" "d" "e" (setInputs ops0 () 1 "us1000" init))
      = Except.error (PyError.keyError "population_exposure")
    ∧ getHistoricalTable (setComments "a" "b" "c" "d" "e" (setInputs ops0 () 1 "us1000" init))
      = Except.error (PyError.keyError "historical_earthquakes")
    ∧ getStructureComment (setComments "a" "b" "c" "d" "e" (setInputs ops0 () 1 "us1000" init))
      = Except.error (PyError.keyError "comments")
    ∧ getHistoricalComment (setComments "a" "b" "c" "d" "e" (setInputs ops0 () 1 "us1000" init))
      = Except.error (PyError.keyError "comments")
    ∧ getCityTable (setComments "a" "b" "c" "d" "e" (setInputs ops0 () 1 "us1000" init))
      = Except.error (PyError.keyError "city_table")
    ∧ getSummaryAlert (setComments "a" "b" "c" "d" "e" (setInputs ops0 () 1 "us1000" init))
      = Except.error (PyError.keyError "pager") :=
  accessors_fail_before_finalize ops0
    [SetterOp.inputs () 1 "us1000", SetterOp.comments "a" "b" "c" "d" "e"]
    (setComments "a" "b" "c" "d" "e" (setInputs ops0 () 1 "us1000" init)) rfl

/-! ### Claim C10 -/

/-- C10 counterexample: with all four mandatory groups set but
`setMapInfo` never called, the mandatory checks pass, yet `validate`
fails with `AttributeError` on `_city_file` while building the
city-table section, so no full finalized report is produced. -/
theorem mapinfo_required_at_city_table_cex :
    errOf (validate ops0 stNoMap) = some (PyError.attributeError "_city_file")
    ∧ stNoMap.input_set = true ∧ stNoMap.exposure_set = true
    ∧ stNoMap.models_set = true ∧ stNoMap.comments_set = true
    ∧ (validate ops0 stNoMap).toOption.isSome = false := by
  decide

/-- C10 amended: map-info is not among the mandatory-flag checks, but it
is required de facto: whenever `validate` succeeds, the `_city_file`
attribute must have been set (i.e. `setMapInfo` must have been called). -/
theorem validate_ok_requires_mapinfo (ops : Cops τ) (st : PagerState τ)
    (hok : (validate ops st).toOption.isSome = true) : st.city_file.isSome = true := by
  cases hv : validate ops st with
  | error e2 => rw [hv] at hok; simp [Except.toOption] at hok
  | ok s2 =>
    obtain ⟨pn, _, _, hct⟩ := validate_ok_inv hv
    cases hc : getCityTableSec ops st with
    | error e2 => rw [hc] at hct; simp [Except.toOption] at hct
    | ok ct =>
      unfold getCityTableSec at hc
      obtain ⟨cf, hcf, _⟩ := exBind_ok_inv hc
      rw [getattr_ok_inv hcf]
      rfl

/-- Witness for the amended C10 at the fully populated registry. -/
theorem validate_ok_requires_mapinfo_witness : stFull.city_file.isSome = true :=
  validate_ok_requires_mapinfo ops0 stFull (by decide)

/-! ### Claim C1 -/

/-- C1 counterexample: at the spec's own example, fatality `yellow`
(severity 1) and economic `red` (severity 3), the code marks the
*fatality* group as summary and the economic group as not-summary —
because line 301 compares the two label strings lexicographically
(`rleveldict[leveldict[x]]` maps each label back to itself) — whereas the
claim requires the economic group to be the summary (flags
`(false, true)`). -/
theorem summary_marking_cex :
    alertSummaryFlags stYR = some (true, false)
    ∧ leveldict "yellow" = some 1 ∧ leveldict "red" = some 3
    ∧ (1 : Nat) < 3
    ∧ some ((true : Bool), (false : Bool)) ≠ some ((false : Bool), (true : Bool)) := by
  decide

/-- C1 amended: the fatality group is marked summary exactly when the
pair of labels is one of the six pairs whose fatality label is
lexicographically greater as a Python string (so ties mark the economic
group as summary); the economic flag is always the negation, so exactly
one group carries `summary = true`. -/
theorem summary_marking_lexicographic
    (st : PagerState τ) (fm em : LossModel τ) (fr er : List (String × τ.F))
    (f e : String)
    (hfm : st.fatmodel = some fm) (hfr : st.fatmodel_results = some fr)
    (hem : st.ecomodel = some em) (her : st.ecomodel_results = some er)
    (hf : fm.getAlertLevel fr = f) (he : em.getAlertLevel er = e)
    (hfl : f ∈ labels4) (hel : e ∈ labels4)
    (hok : (setAlertsSec st).toOption.isSome = true) :
    alertSummaryFlags st
      = some (decide ((f, e) ∈ fatWins), !decide ((f, e) ∈ fatWins)) := by
  cases hs : setAlertsSec st with
  | error e2 => rw [hs] at hok; simp [Except.toOption] at hok
  | ok al =>
    have hs2 := hs
    unfold setAlertsSec at hs2
    simp only [hfm, hfr, hem, her, getattr, exBindOk] at hs2
    rw [hf, he, is_fat_summary_table hfl hel] at hs2
    simp only [exBindOk] at hs2
    obtain ⟨fb, hfb, hs2⟩ := exBind_ok_inv hs2
    obtain ⟨eb, heb, hs2⟩ := exBind_ok_inv hs2
    have h2 := exPure_ok_inv hs2
    unfold alertSummaryFlags
    rw [hs]
    show some (al.fatality.summary, al.economic.summary) = _
    rw [← h2]

/-- Witness for the amended C1 at fatality `yellow`, economic `red`:
`("yellow", "red")` is one of the lexicographic fatality-wins pairs, so
the fatality group is the summary. -/
theorem summary_marking_lexicographic_witness :
    alertSummaryFlags stYR = some (true, false) :=
  summary_marking_lexicographic stYR fmYellow emRed fres0 eres0 "yellow" "red"
    rfl rfl rfl rfl rfl rfl (by decide) (by decide) (by decide)

/-! ### Claim C8 -/

/-- C8 counterexample: the bins the code builds carry the *string*
halves of the range label in `min`/`max` (e.g. `'100'`), not parsed
numbers as the claim states; the spec-modelled numeric bins differ from
the code's bins at every entry. -/
theorem bins_min_max_are_strings_cex :
    (buildBins (τ := tau0) probs7).toOption.map (List.map Bin.min)
      = some [PyVal.str "0", PyVal.str "1", PyVal.str "10", PyVal.str "100",
              PyVal.str "1000", PyVal.str "10000", PyVal.str "100000"]
    ∧ (specNumericBins (τ := tau0) probs7).map (List.map Bin.min)
      = some [PyVal.num 0, PyVal.num 1, PyVal.num 10, PyVal.num 100,
              PyVal.num 1000, PyVal.num 10000, PyVal.num 100000]
    ∧ PyVal.str "100" ≠ PyVal.num 100 := by
  decide

/-- C8 amended: for a probability mapping carrying exactly the 7 fixed
range labels, the bins list has exactly 7 entries, one per label, each
with the fixed color, the two textual halves of the range label (as
strings, not numbers) in `min`/`max`, and the model-reported probability
mass. -/
theorem bins_structure (q1 q2 q3 q4 q5 q6 q7 : τ.F) :
    buildBins (τ := τ)
        [("0-1", q1), ("1-10", q2), ("10-100", q3), ("100-1000", q4)
         , ("1000-10000", q5), ("10000-100000", q6), ("100000-10000000", q7)]
      = Except.ok
        [{ color := "green", min := PyVal.str "0", max := PyVal.str "1"
           probability := q1 },
         { color := "yellow", min := PyVal.str "1", max := PyVal.str "10"
           probability := q2 },
         { color := "yellow", min := PyVal.str "10", max := PyVal.str "100"
           probability := q3 },
         { color := "orange", min := PyVal.str "100", max := PyVal.str "1000"
           probability := q4 },
         { color := "red", min := PyVal.str "1000", max := PyVal.str "10000"
           probability := q5 },
         { color := "red", min := PyVal.str "10000", max := PyVal.str "100000"
           probability := q6 },
         { color := "red", min := PyVal.str "100000", max := PyVal.str "10000000"
           probability := q7 }] := by
  rfl

/-- Witness for the amended C8 at the concrete masses of `probs7`. -/
theorem bins_structure_witness :
    buildBins (τ := tau0) probs7
      = Except.ok
        [{ color := "green", min := PyVal.str "0", max := PyVal.str "1"
           probability := 1 },
         { color := "yellow", min := PyVal.str "1", max := PyVal.str "10"
           probability := 2 },
         { color := "yellow", min := PyVal.str "10", max := PyVal.str "100"
           probability := 3 },
         { color := "orange", min := PyVal.str "100", max := PyVal.str "1000"
           probability := 4 },
         { color := "red", min := PyVal.str "1000", max := PyVal.str "10000"
           probability := 5 },
         { color := "red", min := PyVal.str "10000", max := PyVal.str "100000"
           probability := 6 },
         { color := "red", min := PyVal.str "100000", max := PyVal.str "10000000"
           probability := 7 }] :=
  bins_structure 1 2 3 4 5 6 7

/-! ### Claim C9 -/

theorem lookup_mem_keys {β : Type} {l : List (String × β)} {k : String} {v : β}
    (h : l.lookup k = some v) : k ∈ l.map Prod.fst := by
  induction l with
  | nil => exact Option.noConfusion h
  | cons p rest ih =>
    obtain ⟨pk, pv⟩ := p
    rw [List.map_cons]
    cases hbe : (k == pk) with
    | false =>
        have h2 : rest.lookup k = some v := by
          have h3 : (match k == pk with
            | true => some pv
            | false => rest.lookup k) = some v := h
          rwa [hbe] at h3
        exact List.mem_cons_of_mem _ (ih h2)
    | true => exact List.mem_cons.mpr (Or.inl (eq_of_beq hbe))

theorem filter_ne_all {β : Type} {l : List (String × β)} {k : String}
    (h : k ∉ l.map Prod.fst) : l.filter (fun p => p.1 != k) = l := by
  induction l with
  | nil => rfl
  | cons p rest ih =>
    rw [List.map_cons] at h
    have h1 : p.1 ≠ k := fun he => h (by rw [← he]; exact List.mem_cons_self _ _)
    have h2 : k ∉ rest.map Prod.fst := fun hm => h (List.mem_cons_of_mem _ hm)
    have hc : (p.1 != k) = true := bne_iff_ne.mpr h1
    rw [List.filter_cons, if_pos hc, ih h2]

theorem length_filter_ne {β : Type} {l : List (String × β)} {k : String}
    (hnd : (l.map Prod.fst).Nodup) (hk : k ∈ l.map Prod.fst) :
    (l.filter (fun p => p.1 != k)).length + 1 = l.length := by
  induction l with
  | nil => simp at hk
  | cons p rest ih =>
    rw [List.map_cons] at hnd hk
    rw [List.nodup_cons] at hnd
    rw [List.filter_cons]
    by_cases hpk : p.1 = k
    · have hrest : k ∉ rest.map Prod.fst := by rw [← hpk]; exact hnd.1
      rw [if_neg (by rw [hpk]; simp)]
      rw [filter_ne_all hrest]
      simp
    · have hkrest : k ∈ rest.map Prod.fst := by
        rcases List.mem_cons.mp hk with h1 | h1
        · exact absurd h1.symm hpk
        · exact h1
      rw [if_pos (bne_iff_ne.mpr hpk)]
      have h4 := ih hnd.2 hkrest
      simp only [List.length_cons]
      omega

/-- C9: for exposure tables whose distinct keys are the total key plus
country codes, both reshaped exposure sections succeed with `mmi` list
`[1..10]`, the total-key sequence as `aggregated_exposure` unchanged, and
a per-country list that is exactly the non-total rows (so it never
contains the total key and has `number of keys - 1` entries). -/
theorem exposure_reshaping_correct
    (st : PagerState τ) (expoP expoE : List (String × List Nat)) (tP tE : List Nat)
    (hP : st.exposure = some expoP) (hE : st.econ_exposure = some expoE)
    (hndP : (expoP.map Prod.fst).Nodup) (hndE : (expoE.map Prod.fst).Nodup)
    (hlkP : expoP.lookup "TotalExposure" = some tP)
    (hlkE : expoE.lookup "TotalEconomicExposure" = some tE) :
    setPopulationExposure st = Except.ok
      { mmi := [1, 2, 3, 4, 5, 6, 7, 8, 9, 10], aggregated_exposure := tP
        country_exposures := (expoP.filter (fun p => p.1 != "TotalExposure")).map
          (fun p => { country_code := p.1, exposure := p.2 }) }
    ∧ ((expoP.filter (fun p => p.1 != "TotalExposure")).map
          (fun p => ({ country_code := p.1, exposure := p.2 } : CountryExposure))).all
        (fun ce => ce.country_code != "TotalExposure") = true
    ∧ (expoP.filter (fun p => p.1 != "TotalExposure")).length + 1 = expoP.length
    ∧ setEconomicExposure st = Except.ok
      { mmi := [1, 2, 3, 4, 5, 6, 7, 8, 9, 10], aggregated_exposure := tE
        country_exposures := (expoE.filter (fun p => p.1 != "TotalEconomicExposure")).map
          (fun p => { country_code := p.1, exposure := p.2 }) }
    ∧ ((expoE.filter (fun p => p.1 != "TotalEconomicExposure")).map
          (fun p => ({ country_code := p.1, exposure := p.2 } : CountryExposure))).all
        (fun ce => ce.country_code != "TotalEconomicExposure") = true
    ∧ (expoE.filter (fun p => p.1 != "TotalEconomicExposure")).length + 1
        = expoE.length := by
  refine ⟨?_, ?_, ?_, ?_, ?_, ?_⟩
  · simp only [setPopulationExposure, hP, getattr, exBindOk, hlkP, keyGet]
    rfl
  · rw [List.all_eq_true]
    intro ce hce
    rw [List.mem_map] at hce
    obtain ⟨p, hp, hpe⟩ := hce
    rw [← hpe]
    exact (List.mem_filter.mp hp).2
  · exact length_filter_ne hndP (lookup_mem_keys hlkP)
  · simp only [setEconomicExposure, hE, getattr, exBindOk, hlkE, keyGet]
    rfl
  · rw [List.all_eq_true]
    intro ce hce
    rw [List.mem_map] at hce
    obtain ⟨p, hp, hpe⟩ := hce
    rw [← hpe]
    exact (List.mem_filter.mp hp).2
  · exact length_filter_ne hndE (lookup_mem_keys hlkE)

/-- Witness for C9 at `stFull` (tables `expo0`, `econ0`, one country
each). -/
theorem exposure_reshaping_correct_witness :
    setPopulationExposure stFull = Except.ok
      { mmi := [1, 2, 3, 4, 5, 6, 7, 8, 9, 10]
        aggregated_exposure := [0, 0, 0, 0, 0, 0, 0, 0, 999, 1500]
        country_exposures :=
          [{ country_code := "US"
             exposure := [10, 10, 10, 10, 10, 10, 10, 10, 10, 10] }] }
    ∧ ([({ country_code := "US"
           exposure := [10, 10, 10, 10, 10, 10, 10, 10, 10, 10] } : CountryExposure)]).all
        (fun ce => ce.country_code != "TotalExposure") = true
    ∧ (1 : Nat) + 1 = 2
    ∧ setEconomicExposure stFull = Except.ok
      { mmi := [1, 2, 3, 4, 5, 6, 7, 8, 9, 10]
        aggregated_exposure := [0, 0, 0, 0, 0, 0, 0, 0, 0, 5]
        country_exposures :=
          [{ country_code := "US", exposure := [1, 1, 1, 1, 1, 1, 1, 1, 1, 1] }] }
    ∧ ([({ country_code := "US"
           exposure := [1, 1, 1, 1, 1, 1, 1, 1, 1, 1] } : CountryExposure)]).all
        (fun ce => ce.country_code != "TotalEconomicExposure") = true
    ∧ (1 : Nat) + 1 = 2 :=
  exposure_reshaping_correct stFull expo0 econ0
    [0, 0, 0, 0, 0, 0, 0, 0, 999, 1500] [0, 0, 0, 0, 0, 0, 0, 0, 0, 5]
    rfl rfl (by decide) (by decide) (by decide) (by decide)

end Losspager
